import Mathlib

/-!
Shallow embedding of `src/braket/aws/aws_quantum_task.py` (the asynchronous
job-completion engine of the repository): the `AwsQuantumTask` handle, its
polling loop `_wait_for_completion`, the future-caching logic `_get_future`,
the submission factory `create`, and the result dispatcher `_format_result`.

External collaborators (the AWS session, the schema parser, the circuit
validator) are modelled as explicit parameters: the environment supplies the
successive `get_quantum_task` responses as a list, S3 blob retrieval as a
function, and schema parsing as a function.  Network traffic is recorded as an
explicit list of `NetCall` values so that claims about "no network call" /
"exactly one call" are statable.
-/

namespace BraketSpec

/-- Status states with no retrievable result (class attribute
`NO_RESULT_TERMINAL_STATES`, source line 43). -/
def NO_RESULT_TERMINAL_STATES : List String := ["FAILED", "CANCELLED"]

/-- Status states whose result is ready (class attribute
`RESULTS_READY_STATES`, source line 44). -/
def RESULTS_READY_STATES : List String := ["COMPLETED"]

/-- Default polling timeout (source line 46: 120 seconds).  Durations are
modelled in integer milliseconds so that the quarter-second default
interval is exactly representable. -/
def DEFAULT_RESULTS_POLL_TIMEOUT : Int := 120000

/-- Default polling interval (source line 47: 0.25 seconds), in
milliseconds. -/
def DEFAULT_RESULTS_POLL_INTERVAL : Int := 250

/-- Fixed results file name (class attribute `RESULTS_FILENAME`, source
line 48). -/
def RESULTS_FILENAME : String := "results.json"

/-- The names of the attributes defined in the body of class
`AwsQuantumTask` (source lines 43-48).  Note that `DEFAULT_SHOTS` is not
among them. -/
def awsQuantumTaskClassAttrNames : List String :=
  ["NO_RESULT_TERMINAL_STATES", "RESULTS_READY_STATES",
   "DEFAULT_RESULTS_POLL_TIMEOUT", "DEFAULT_RESULTS_POLL_INTERVAL",
   "RESULTS_FILENAME"]

/-- Python attribute lookup of `AwsQuantumTask.DEFAULT_SHOTS` (referenced at
source line 107).  The class body defines only the attributes in
`awsQuantumTaskClassAttrNames`; since `DEFAULT_SHOTS` is absent, the lookup
raises `AttributeError`.  The `.ok` branch is dead code kept to show the
lookup structure. -/
def awsQuantumTaskDefaultShots : Except String Int :=
  if awsQuantumTaskClassAttrNames.contains "DEFAULT_SHOTS" then .ok 0
  else .error "AttributeError: type object AwsQuantumTask has no attribute DEFAULT_SHOTS"

/-- Dynamically typed values carried inside result payloads (numbers, the
complex values produced by Python `complex`, lists, string-keyed dicts,
strings).  Numeric components are modelled as integers; no arithmetic is
performed on them by the code under study, they are only repackaged. -/
inductive PyVal where
  | num : Int → PyVal
  | cpx : Int → Int → PyVal
  | listV : List PyVal → PyVal
  | dictV : List (String × PyVal) → PyVal
  | strV : String → PyVal

/-- One entry of `result.resultTypes`: `typeTag` models
`result_type.type.type` and `value` models `result_type.value`. -/
structure ResultTypeEntry where
  typeTag : String
  value : PyVal

/-- The schema object `GateModelTaskResult`: the `resultTypes` list (an
absent list is modelled as `[]`, which the source's truthiness test treats
identically) plus the rest of the object, opaque to `_format_result`. -/
structure GateModelTaskResult where
  resultTypes : List ResultTypeEntry
  measurements : PyVal

/-- The schema object `AnnealingTaskResult`, opaque to `_format_result`. -/
structure AnnealingTaskResult where
  payload : PyVal

/-- The type-tagged parse of a raw result body
(`BraketSchemaBase.parse_raw_schema`), over which `_format_result`
dispatches; `other` covers any unregistered schema type. -/
inductive TaskResultSchema where
  | gateModel : GateModelTaskResult → TaskResultSchema
  | annealing : AnnealingTaskResult → TaskResultSchema
  | other : String → TaskResultSchema

/-- `GateModelQuantumTaskResult.from_object` output, modelled as a wrapper
around the (post-processed) schema object; the conversion itself belongs to
an external collaborator. -/
structure GateModelQuantumTaskResult where
  fromObject : GateModelTaskResult

/-- `AnnealingQuantumTaskResult.from_object` output, modelled as a wrapper
around the schema object. -/
structure AnnealingQuantumTaskResult where
  fromObject : AnnealingTaskResult

/-- The union of task result values a handle can hold. -/
inductive QuantumTaskResult where
  | gateModel : GateModelQuantumTaskResult → QuantumTaskResult
  | annealing : AnnealingQuantumTaskResult → QuantumTaskResult

/-- Python argument unpacking `complex(*v)`: `v` must be a list of
arguments.  Other shapes are modelled as a `TypeError`. -/
def starArgs : PyVal → Except String (List PyVal)
  | .listV xs => .ok xs
  | _ => .error "TypeError: argument after star must be an iterable"

/-- Python `complex` applied to zero, one or two numeric arguments;
`complex(a, b)` packs the pair into the single value `a + b*i`. -/
def complexStar : List PyVal → Except String PyVal
  | [] => .ok (.cpx 0 0)
  | [.num a] => .ok (.cpx a 0)
  | [.num a, .num b] => .ok (.cpx a b)
  | _ => .error "TypeError: complex received bad arguments"

/-- One iteration of the amplitude loop body (source line 435):
`result_type.value[state] = complex(*result_type.value[state])`. -/
def convertAmplitudePair (p : String × PyVal) : Except String (String × PyVal) :=
  match starArgs p.2 with
  | .error e => .error e
  | .ok xs =>
    match complexStar xs with
    | .error e => .error e
    | .ok c => .ok (p.1, c)

/-- The loop over the states of one amplitude value dictionary (source
lines 434-435), rebuilding each state's components with
`complex(*components)`. -/
def convertAmplitudeEntries :
    List (String × PyVal) → Except String (List (String × PyVal))
  | [] => .ok []
  | p :: ps =>
    match convertAmplitudePair p with
    | .error e => .error e
    | .ok q =>
      match convertAmplitudeEntries ps with
      | .error e => .error e
      | .ok qs => .ok (q :: qs)

/-- The per-entry transformation of the gate-model branch of
`_format_result` (source lines 430-435): an entry whose tag is
`"amplitude"` has every value of its state dictionary rebuilt by
`complex(*components)`; any other entry is left untouched.  Iterating a
non-dict amplitude value is modelled as a `TypeError`. -/
def formatEntry (e : ResultTypeEntry) : Except String ResultTypeEntry :=
  if e.typeTag = "amplitude" then
    match e.value with
    | .dictV m => (convertAmplitudeEntries m).map (fun m2 => ⟨e.typeTag, .dictV m2⟩)
    | _ => .error "TypeError: amplitude value is not a mapping"
  else .ok e

/-- The loop `for result_type in result.resultTypes` (source line 431),
applied entrywise. -/
def formatEntries : List ResultTypeEntry → Except String (List ResultTypeEntry)
  | [] => .ok []
  | e :: es =>
    match formatEntry e with
    | .error err => .error err
    | .ok e2 =>
      match formatEntries es with
      | .error err => .error err
      | .ok es2 => .ok (e2 :: es2)

/-- The gate-model branch of `_format_result` (source lines 428-436):
post-process the result types, then finalize with
`GateModelQuantumTaskResult.from_object`. -/
def formatGateModel (r : GateModelTaskResult) : Except String GateModelQuantumTaskResult :=
  (formatEntries r.resultTypes).map (fun rts => ⟨⟨rts, r.measurements⟩⟩)

/-- `_format_result` (source lines 423-441): dispatch on the schema type of
the parsed raw result; unregistered types raise `TypeError` (source
line 425). -/
def formatResult : TaskResultSchema → Except String QuantumTaskResult
  | .gateModel r => (formatGateModel r).map .gateModel
  | .annealing r => .ok (.annealing ⟨r⟩)
  | .other _ => .error "TypeError: Invalid result specification type"

/-- Complex addition on (re, im) pairs, used to state what the value
`a + b*i` denotes. -/
def cAdd (x y : Int × Int) : Int × Int := (x.1 + y.1, x.2 + y.2)

/-- Complex multiplication on (re, im) pairs. -/
def cMul (x y : Int × Int) : Int × Int := (x.1 * y.1 - x.2 * y.2, x.1 * y.2 + x.2 * y.1)

/-- The imaginary unit as an (re, im) pair. -/
def cI : Int × Int := (0, 1)

/-- Embedding of an integer as a complex (re, im) pair. -/
def cOfInt (n : Int) : Int × Int := (n, 0)

/-- Repackaging of an (re, im) pair as a Python complex value. -/
def pyComplexOf (z : Int × Int) : PyVal := .cpx z.1 z.2

/-- One `GetQuantumTask` response: the `status` field plus the output
location fields read by the polling loop (source lines 306-311). -/
structure Metadata where
  status : String
  outputS3Bucket : String
  outputS3Directory : String

/-- A network call issued through the AWS session, recorded so that claims
about call counts are statable: `getTask` is `get_quantum_task`,
`cancelTask` is `cancel_quantum_task`, `getBlob` is
`retrieve_s3_object_body` with bucket and key. -/
inductive NetCall where
  | getTask : String → NetCall
  | cancelTask : String → NetCall
  | getBlob : String → String → NetCall
deriving DecidableEq

/-- How one run of `_wait_for_completion` ends: `returned v` models a
normal return of `v` (a result or Python `None`), `raised` models an
exception propagating out, `stuck` means the finite environment supplied no
further metadata so the run's end is not determined by the scenario. -/
inductive RunOutcome where
  | returned : Option QuantumTaskResult → RunOutcome
  | raised : String → RunOutcome
  | stuck : RunOutcome

/-- The observable trace of one run of `_wait_for_completion`:
`statusFetches` counts metadata fetches, `calls` lists the network calls in
order, `remaining` is the unconsumed part of the environment's metadata
sequence, `lastMetadata` is the final value of the handle's metadata cache
written by the in-loop fetches (if any), `memo` is the assignment made to
the handle's `_result` slot (if any), and `outcome` is how the run ended. -/
structure PollRun where
  statusFetches : Nat
  calls : List NetCall
  remaining : List Metadata
  lastMetadata : Option Metadata
  memo : Option (Option QuantumTaskResult)
  outcome : RunOutcome

/-- The polling loop `_wait_for_completion` (source lines 300-333) over a
logical clock: `t` is the elapsed time (`time.time() - start_time`), which
advances by the poll interval `i` at each `asyncio.sleep`; `T` is the poll
timeout.  The loop header tests `t < T`; on entry it fetches the next
metadata from the environment sequence, then dispatches on the status: a
ready state fetches the blob at `outputS3Directory + "/results.json"`,
formats it, memoizes and returns it (a formatting failure propagates); a
no-result terminal state memoizes `None` and returns it; anything else
sleeps and retries.  When the header test fails the run memoizes `None` and
returns it with no fetch. -/
def pollAux (T i : Int) (arn : String) (blob : String → String → String)
    (parse : String → TaskResultSchema) : List Metadata → Int → PollRun
  | [], t =>
    if t < T then ⟨0, [], [], none, none, .stuck⟩
    else ⟨0, [], [], none, some none, .returned none⟩
  | m :: rest, t =>
    if t < T then
      if RESULTS_READY_STATES.contains m.status then
        let path := m.outputS3Directory ++ "/" ++ RESULTS_FILENAME
        match formatResult (parse (blob m.outputS3Bucket path)) with
        | .ok r =>
            ⟨1, [.getTask arn, .getBlob m.outputS3Bucket path], rest, some m,
             some (some r), .returned (some r)⟩
        | .error e =>
            ⟨1, [.getTask arn, .getBlob m.outputS3Bucket path], rest, some m,
             none, .raised e⟩
      else if NO_RESULT_TERMINAL_STATES.contains m.status then
        ⟨1, [.getTask arn], rest, some m, some none, .returned none⟩
      else
        let sub := pollAux T i arn blob parse rest (t + i)
        ⟨1 + sub.statusFetches, .getTask arn :: sub.calls, sub.remaining,
         (match sub.lastMetadata with | some x => some x | none => some m),
         sub.memo, sub.outcome⟩
    else
      ⟨0, [], m :: rest, none, some none, .returned none⟩

/-- The settlement state of the cached asyncio future `_future`:
`running` is a pending task, `doneValue v` is done (not cancelled) with
value `v`, `doneRaised e` is done (not cancelled) with an exception,
`cancelled` is a cancelled future. -/
inductive FutureState where
  | running
  | doneValue : Option QuantumTaskResult → FutureState
  | doneRaised : String → FutureState
  | cancelled

/-- Python `future.done()`. -/
def FutureState.isDone : FutureState → Bool
  | .running => false
  | _ => true

/-- Python `future.cancelled()`. -/
def FutureState.isCancelled : FutureState → Bool
  | .cancelled => true
  | _ => false

/-- Python `future.cancel()`: a pending future becomes cancelled; a settled
future is unaffected. -/
def FutureState.cancelNow : FutureState → FutureState
  | .running => .cancelled
  | s => s

/-- A future together with an identity token, so that "the same operation
is returned" (as opposed to a freshly created one) is statable. -/
structure Future where
  fid : Nat
  state : FutureState

/-- The mutable state of an `AwsQuantumTask` handle (constructor, source
lines 119-160): the task arn, the per-handle poll configuration, the
metadata cache `_metadata` (initially the empty dict, modelled as `none`),
the memoized result `_result` (initially Python `None`), the lazily created
future attribute `_future` (initially absent), and a counter for issuing
future identities. -/
structure TaskHandle where
  arn : String
  pollTimeoutMillis : Int
  pollIntervalMillis : Int
  metadataCache : Option Metadata
  resultCache : Option QuantumTaskResult
  futureAttr : Option Future
  nextFid : Nat

/-- `AwsQuantumTask(arn, session, T, i)`: a handle fresh from the
constructor with an explicit poll configuration. -/
def mkTaskHandle (arn : String) (T i : Int) : TaskHandle :=
  ⟨arn, T, i, none, none, none, 0⟩

/-- A handle fresh from the constructor with the default poll
configuration. -/
def freshTaskHandle (arn : String) : TaskHandle :=
  mkTaskHandle arn DEFAULT_RESULTS_POLL_TIMEOUT DEFAULT_RESULTS_POLL_INTERVAL

/-- The environment a handle runs against: the successive
`get_quantum_task` responses the service will give, the S3 blob store, and
the schema parser (an external collaborator). -/
structure Env where
  metadataSeq : List Metadata
  blob : String → String → String
  parse : String → TaskResultSchema

/-- `metadata(use_cached_value)` (source lines 192-208): a non-cached read
consumes the next environment response, stores it in the cache and records
one `getTask` call; a cached read touches nothing.  The outer `Option` is
`none` when the environment has no response left (the scenario does not
determine the call); the inner `Option` models reading the initially empty
dict. -/
def metadataOp (h : TaskHandle) (env : Env) (useCached : Bool) :
    Option (Option Metadata × TaskHandle × Env × List NetCall) :=
  if useCached then some (h.metadataCache, h, env, [])
  else
    match env.metadataSeq with
    | [] => none
    | m :: rest =>
        some (some m, { h with metadataCache := some m },
              { env with metadataSeq := rest }, [.getTask h.arn])

/-- `state(use_cached_value)` (source lines 210-226):
`metadata(use_cached_value).get("status")`. -/
def stateOp (h : TaskHandle) (env : Env) (useCached : Bool) :
    Option (Option String × TaskHandle × Env × List NetCall) :=
  (metadataOp h env useCached).map
    (fun x => (x.1.map Metadata.status, x.2.1, x.2.2.1, x.2.2.2))

/-- `_create_future` followed by driving the created task (source lines
274-283 plus 285-333): run the polling loop from elapsed time 0, settle a
fresh future with its outcome, and apply the loop's writes to the handle's
metadata cache and `_result` slot.  A run the environment leaves
undetermined yields a still-`running` future. -/
def createFuture (h : TaskHandle) (env : Env) :
    Future × TaskHandle × Env × List NetCall :=
  let run := pollAux h.pollTimeoutMillis h.pollIntervalMillis h.arn
    env.blob env.parse env.metadataSeq 0
  let fstate := match run.outcome with
    | .returned v => FutureState.doneValue v
    | .raised e => FutureState.doneRaised e
    | .stuck => FutureState.running
  let fut : Future := ⟨h.nextFid, fstate⟩
  (fut,
   { h with futureAttr := some fut, nextFid := h.nextFid + 1,
            metadataCache :=
              (match run.lastMetadata with
               | some m => some m
               | none => h.metadataCache),
            resultCache :=
              (match run.memo with
               | some r => r
               | none => h.resultCache) },
   { env with metadataSeq := run.remaining },
   run.calls)

/-- `_get_future` (source lines 245-265): if no future attribute exists,
create one; else if the cached future is done, not cancelled, and no result
was memoized, fetch fresh metadata — if the status is a no-result terminal
state, warn and keep the existing settled future, otherwise create a new
one; in every other case return the existing future untouched. -/
def getFuture (h : TaskHandle) (env : Env) :
    Option (Future × TaskHandle × Env × List NetCall) :=
  match h.futureAttr with
  | none => some (createFuture h env)
  | some f =>
    if f.state.isDone && !f.state.isCancelled && h.resultCache.isNone then
      match env.metadataSeq with
      | [] => none
      | m :: rest =>
        let h1 := { h with metadataCache := some m }
        let env1 := { env with metadataSeq := rest }
        if NO_RESULT_TERMINAL_STATES.contains m.status then
          some (f, h1, env1, [.getTask h.arn])
        else
          let c := createFuture h1 env1
          some (c.1, c.2.1, c.2.2.1, .getTask h.arn :: c.2.2.2)
    else some (f, h, env, [])

/-- `async_result` (source lines 267-272): return `_get_future()`. -/
def asyncResultOp (h : TaskHandle) (env : Env) :
    Option (Future × TaskHandle × Env × List NetCall) :=
  getFuture h env

/-- `result` (source lines 228-243): drive the future from
`async_result()` to completion; a cancelled future's `CancelledError` is
caught and the memoized `_result` is returned instead; an exception inside
the polling coroutine propagates.  A still-undetermined future leaves the
call undetermined. -/
def resultOp (h : TaskHandle) (env : Env) :
    Option (Except String (Option QuantumTaskResult) × TaskHandle × Env × List NetCall) :=
  match getFuture h env with
  | none => none
  | some (f, h2, env2, calls) =>
    match f.state with
    | .doneValue v => some (.ok v, h2, env2, calls)
    | .doneRaised e => some (.error e, h2, env2, calls)
    | .cancelled => some (.ok h2.resultCache, h2, env2, calls)
    | .running => none

/-- `_cancel_future` (source lines 179-185): cancel the future if the
attribute exists, else create an already-cancelled future. -/
def cancelFutureOp (h : TaskHandle) : TaskHandle :=
  match h.futureAttr with
  | some f => { h with futureAttr := some ⟨f.fid, f.state.cancelNow⟩ }
  | none =>
      { h with futureAttr := some ⟨h.nextFid, .cancelled⟩,
               nextFid := h.nextFid + 1 }

/-- `cancel` (source lines 187-190): cancel the local future, then issue
one remote `cancel_quantum_task` call.  No path raises; the `Except`
result records that the call returns normally. -/
def cancelOp (h : TaskHandle) : Except String (TaskHandle × List NetCall) :=
  .ok (cancelFutureOp h, [.cancelTask h.arn])

/-- Projection: the network calls a `result()` call issues. -/
def resultOpCalls (h : TaskHandle) (env : Env) : Option (List NetCall) :=
  (resultOp h env).map (fun x => x.2.2.2)

/-- Projection: the value a `result()` call returns (or the exception it
raises). -/
def resultOpValue (h : TaskHandle) (env : Env) :
    Option (Except String (Option QuantumTaskResult)) :=
  (resultOp h env).map (fun x => x.1)

/-- Projection: the `_result` slot of the handle after a `result()` call. -/
def resultOpMemo (h : TaskHandle) (env : Env) :
    Option (Option QuantumTaskResult) :=
  (resultOp h env).map (fun x => x.2.1.resultCache)

/-- Projection: the `_future` attribute of the handle after a `result()`
call. -/
def resultOpFutureAttr (h : TaskHandle) (env : Env) : Option (Option Future) :=
  (resultOp h env).map (fun x => x.2.1.futureAttr)

/-- A circuit task specification as `_create_internal` consumes it: its
qubit count and its serialized intermediate representation
(`circuit.to_ir().json()`). -/
structure CircuitSpec where
  qubitCount : Nat
  irJson : String

/-- An annealing problem task specification as `_create_internal` consumes
it: its serialized intermediate representation
(`problem.to_ir().json()`). -/
structure ProblemSpec where
  irJson : String

/-- The runtime type of the `task_specification` argument; `other` covers
any type with no registered `_create_internal` overload. -/
inductive TaskSpecification where
  | circuit : CircuitSpec → TaskSpecification
  | problem : ProblemSpec → TaskSpecification
  | other : String → TaskSpecification

/-- The serialized `deviceParameters` payload chosen by `_create_internal`
(source lines 374-382 and 401-405): a provider-specific gate-model shape
carrying the circuit's qubit count, or the serialized D-Wave parameters. -/
inductive DeviceParamShape where
  | ionq : Nat → DeviceParamShape
  | rigetti : Nat → DeviceParamShape
  | simulator : Nat → DeviceParamShape
  | dwaveJson : String → DeviceParamShape
deriving DecidableEq

/-- The keyword arguments of the `create_quantum_task` call: the common
parameters built by `_create_common_params` (source lines 412-420) updated
with the action payload and device parameters. -/
structure CreateTaskRequest where
  deviceArn : String
  outputS3Bucket : String
  outputS3KeyPfx : String
  shots : Int
  action : String
  deviceParameters : DeviceParamShape
deriving DecidableEq

/-- A network call of the submission factory: the single
`create_quantum_task` call with its full request. -/
inductive SubmitCall where
  | createTask : CreateTaskRequest → SubmitCall
deriving DecidableEq

/-- Python substring test `sub in s`, via `splitOn`. -/
def strContains (s sub : String) : Bool := (s.splitOn sub).length > 1

/-- `AwsQuantumTask.create` (source lines 50-117) followed by
`_create_internal` (source lines 347-409), with the external collaborators
as parameters: `validate` is `validate_circuit_and_shots` (an external
module), `dwaveParamsJson` is
`DwaveDeviceParameters.parse_obj(...).json()` (an external schema class),
and `newTaskArn` is the arn the service returns from
`create_quantum_task`.  The factory first checks that the destination
folder has exactly 2 components; then resolves the shot count, falling
back to the (undefined) class attribute `DEFAULT_SHOTS` when `shots` is
Python `None`; then dispatches on the runtime type of the specification;
circuit and problem submissions issue exactly one `create_quantum_task`
call and wrap the returned arn in a fresh handle, while an unregistered
type raises `TypeError`.  The second component lists the network calls
issued, empty on every raising path. -/
def createOp (validate : CircuitSpec → Int → Except String Unit)
    (dwaveParamsJson : PyVal → Except String String)
    (newTaskArn : String) (deviceArn : String) (spec : TaskSpecification)
    (s3DestinationFolder : List String) (shots : Option Int)
    (deviceParameters : Option PyVal) :
    Except String TaskHandle × List SubmitCall :=
  if s3DestinationFolder.length ≠ 2 then
    (.error "ValueError: s3_destination_folder must be of size 2 with a bucket and key respectively.",
     [])
  else
    match (match shots with
           | some sh => Except.ok sh
           | none => awsQuantumTaskDefaultShots) with
    | .error e => (.error e, [])
    | .ok sh =>
      let bucket := s3DestinationFolder.getD 0 ""
      let key := s3DestinationFolder.getD 1 ""
      match spec with
      | .circuit c =>
        match validate c sh with
        | .error e => (.error e, [])
        | .ok _ =>
          let shape :=
            if strContains deviceArn "ionq" then DeviceParamShape.ionq c.qubitCount
            else if strContains deviceArn "rigetti" then DeviceParamShape.rigetti c.qubitCount
            else DeviceParamShape.simulator c.qubitCount
          (.ok (freshTaskHandle newTaskArn),
           [.createTask ⟨deviceArn, bucket, key, sh, c.irJson, shape⟩])
      | .problem p =>
        match dwaveParamsJson (deviceParameters.getD (.dictV [])) with
        | .error e => (.error e, [])
        | .ok dj =>
          (.ok (freshTaskHandle newTaskArn),
           [.createTask ⟨deviceArn, bucket, key, sh, p.irJson, .dwaveJson dj⟩])
      | .other _ => (.error "TypeError: Invalid task specification type", [])


/-- A trivial blob store used for concrete scenarios: every key holds the
body `"body"`. -/
def constBlob : String → String → String := fun _ _ => "body"

/-- A trivial schema parser used for concrete scenarios: every body parses
to a fixed annealing-shaped result. -/
def constParse : String → TaskResultSchema := fun _ => .annealing ⟨.num 0⟩

/-- A circuit validator (external collaborator) that accepts everything,
used for concrete scenarios. -/
def constValidate : CircuitSpec → Int → Except String Unit := fun _ _ => .ok ()

/-- A D-Wave parameter serializer (external collaborator) that accepts
everything, used for concrete scenarios. -/
def constDwave : PyVal → Except String String := fun _ => .ok "dw"

/-- A handle whose polling run has settled with the terminal no-result
outcome: the future is done with value `None` and the result slot holds
`None` — exactly the state left behind by a `[..., FAILED]` run. -/
def memoizedNoResultHandle : TaskHandle :=
  { freshTaskHandle "arn0" with futureAttr := some ⟨0, .doneValue none⟩, nextFid := 1 }

/-- An environment whose next status response is terminal `FAILED`. -/
def failedEnv : Env := ⟨[⟨"FAILED", "b", "p"⟩], constBlob, constParse⟩

/-- The fixed annealing result value `constParse` produces after
dispatch. -/
def annealingResultVal : QuantumTaskResult := .annealing ⟨⟨.num 0⟩⟩

/-- A handle with a concrete memoized result: the future settled with the
result and the result slot holds the same value. -/
def memoizedResultHandle : TaskHandle :=
  { freshTaskHandle "arn1" with resultCache := some annealingResultVal,
                                futureAttr := some ⟨0, .doneValue (some annealingResultVal)⟩,
                                nextFid := 1 }

/-- The conversion relation for one state of an amplitude dictionary: the
key is preserved, and a two-component encoding `[a, b]` becomes the single
complex value `a + b*i`. -/
def ampPairConverted (p q : String × PyVal) : Prop :=
  q.1 = p.1 ∧ ∀ a b : Int, p.2 = .listV [.num a, .num b] →
    q.2 = pyComplexOf (cAdd (cOfInt a) (cMul (cOfInt b) cI))

/-- The conversion relation for one result-type entry: a non-amplitude
entry passes through unchanged, and an amplitude entry keeps its tag while
its state dictionary is converted pointwise by `ampPairConverted`. -/
def entryConverted (e e2 : ResultTypeEntry) : Prop :=
  (e.typeTag ≠ "amplitude" → e2 = e) ∧
  (e.typeTag = "amplitude" → e2.typeTag = "amplitude" ∧
    ∀ m, e.value = .dictV m → ∃ m2, e2.value = .dictV m2 ∧
      List.Forall₂ ampPairConverted m m2)

/-- A gate-model raw result with an amplitude entry encoding `(3, 4)` and a
non-amplitude entry. -/
def ampResultExample : GateModelTaskResult :=
  ⟨[⟨"amplitude", .dictV [("00", .listV [.num 3, .num 4])]⟩,
    ⟨"probability", .num 7⟩], .num 9⟩

/-- The formatted counterpart of `ampResultExample`: the amplitude encoding
became the complex value `3 + 4i` and the other entry is unchanged. -/
def ampResultExampleOut : GateModelQuantumTaskResult :=
  ⟨⟨[⟨"amplitude", .dictV [("00", .cpx 3 4)]⟩, ⟨"probability", .num 7⟩], .num 9⟩⟩


/-- The complex value `a + b*i`, computed with the complex operations,
is exactly the packed pair `(a, b)`. -/
theorem complex_add_mul_I (a b : Int) :
    pyComplexOf (cAdd (cOfInt a) (cMul (cOfInt b) cI)) = .cpx a b := by
  simp [pyComplexOf, cAdd, cMul, cOfInt, cI]

/-- A successful run of the amplitude loop body satisfies the conversion
relation for that state. -/
theorem convertAmplitudePair_spec (p q : String × PyVal)
    (h : convertAmplitudePair p = .ok q) : ampPairConverted p q := by
  unfold convertAmplitudePair at h
  split at h
  · exact absurd h (by simp)
  · rename_i xs hs
    split at h
    · exact absurd h (by simp)
    · rename_i c hc
      have hq : q = (p.1, c) := by cases h; rfl
      subst hq
      refine ⟨rfl, ?_⟩
      intro a b hpv
      rw [hpv] at hs
      have hxs : xs = [.num a, .num b] := by
        simpa [starArgs] using hs.symm
      subst hxs
      have hcab : c = .cpx a b := by simpa [complexStar] using hc.symm
      simp [hcab, complex_add_mul_I]

/-- A successful run of the amplitude dictionary loop converts the states
pointwise. -/
theorem convertAmplitudeEntries_spec :
    ∀ ps qs, convertAmplitudeEntries ps = .ok qs → List.Forall₂ ampPairConverted ps qs := by
  intro ps
  induction ps with
  | nil =>
    intro qs h
    have : qs = [] := by simpa [convertAmplitudeEntries] using h.symm
    subst this; exact .nil
  | cons p ps ih =>
    intro qs h
    unfold convertAmplitudeEntries at h
    cases hc : convertAmplitudePair p with
    | error e => rw [hc] at h; exact absurd h (by simp)
    | ok q =>
      rw [hc] at h
      cases hr : convertAmplitudeEntries ps with
      | error e => rw [hr] at h; exact absurd h (by simp)
      | ok qs2 =>
        rw [hr] at h
        have : qs = q :: qs2 := by cases h; rfl
        subst this
        exact .cons (convertAmplitudePair_spec p q hc) (ih qs2 hr)

/-- A successfully formatted result-type entry satisfies the entry
conversion relation. -/
theorem formatEntry_spec (e e2 : ResultTypeEntry)
    (h : formatEntry e = .ok e2) : entryConverted e e2 := by
  unfold formatEntry at h
  by_cases ht : e.typeTag = "amplitude"
  · rw [if_pos ht] at h
    refine ⟨fun hne => absurd ht hne, fun _ => ?_⟩
    split at h
    · rename_i m hv
      cases hm : convertAmplitudeEntries m with
      | error err => rw [hm] at h; exact absurd h (by simp [Except.map])
      | ok m2 =>
        rw [hm] at h
        have he2 : e2 = ⟨e.typeTag, .dictV m2⟩ := by
          simpa [Except.map] using h.symm
        subst he2
        refine ⟨ht, ?_⟩
        intro m3 hm3
        rw [hv] at hm3
        have hm3m : m3 = m := by
          injection hm3.symm
        subst hm3m
        exact ⟨m2, rfl, convertAmplitudeEntries_spec _ m2 hm⟩
    · exact absurd h (by simp)
  · rw [if_neg ht] at h
    have : e2 = e := by cases h; rfl
    subst this
    exact ⟨fun _ => rfl, fun hc => absurd hc ht⟩

/-- A successful run of the result-type loop converts the entries
pointwise. -/
theorem formatEntries_spec :
    ∀ es es2, formatEntries es = .ok es2 → List.Forall₂ entryConverted es es2 := by
  intro es
  induction es with
  | nil =>
    intro es2 h
    have : es2 = [] := by simpa [formatEntries] using h.symm
    subst this; exact .nil
  | cons e es ih =>
    intro es2 h
    unfold formatEntries at h
    cases hc : formatEntry e with
    | error err => rw [hc] at h; exact absurd h (by simp)
    | ok e2 =>
      rw [hc] at h
      cases hr : formatEntries es with
      | error err => rw [hr] at h; exact absurd h (by simp)
      | ok es3 =>
        rw [hr] at h
        have : es2 = e2 :: es3 := by cases h; rfl
        subst this
        exact .cons (formatEntry_spec e e2 hc) (ih es3 hr)

/-- C1 is refuted as stated: for a handle whose result is memoized as the
terminal no-result outcome (future settled with value `None`, result slot
`None`), the next `result()` call does perform a further network call —
exactly one metadata fetch re-confirming terminality — even though it
still returns the cached empty value. -/
theorem claim_C1_counterexample :
    resultOpValue memoizedNoResultHandle failedEnv = some (.ok none) ∧
    resultOpCalls memoizedNoResultHandle failedEnv = some [.getTask "arn0"] :=
  ⟨rfl, rfl⟩

/-- C1 amended: once a concrete result is memoized, every subsequent
`result()` call returns the identical cached value, leaves the handle
untouched and performs no network call; `status(useCached := true)` never
performs a network call; but a memoized terminal no-result is re-confirmed
on each subsequent `result()` call with exactly one metadata fetch, after
which the cached empty value is returned and the same settled future is
kept — no new polling run and no blob fetch. -/
theorem claim_C1_amended :
    (∀ (h : TaskHandle) (env : Env) (fid : Nat) (r : QuantumTaskResult),
        h.resultCache = some r → h.futureAttr = some ⟨fid, .doneValue (some r)⟩ →
        resultOp h env = some (.ok (some r), h, env, [])) ∧
    (∀ (h : TaskHandle) (env : Env),
        stateOp h env true = some (h.metadataCache.map Metadata.status, h, env, [])) ∧
    (∀ (h : TaskHandle) (env : Env) (fid : Nat) (m : Metadata) (rest : List Metadata),
        h.resultCache = none → h.futureAttr = some ⟨fid, .doneValue none⟩ →
        env.metadataSeq = m :: rest →
        NO_RESULT_TERMINAL_STATES.contains m.status = true →
        resultOp h env = some (.ok none, { h with metadataCache := some m },
          { env with metadataSeq := rest }, [.getTask h.arn])) := by
  refine ⟨?_, ?_, ?_⟩
  · intro h env fid r hres hfut
    simp [resultOp, getFuture, hfut, hres, FutureState.isDone, FutureState.isCancelled]
  · intro h env
    simp [stateOp, metadataOp]
  · intro h env fid m rest hres hfut henv hterm
    have hmem : m.status ∈ NO_RESULT_TERMINAL_STATES := by simpa using hterm
    simp [resultOp, getFuture, hfut, hres, henv, hmem,
      FutureState.isDone, FutureState.isCancelled]

/-- Witness for `claim_C1_amended` at concrete handles and environments. -/
theorem claim_C1_amended_witness :
    resultOp memoizedResultHandle failedEnv
        = some (.ok (some annealingResultVal), memoizedResultHandle, failedEnv, []) ∧
    stateOp memoizedResultHandle failedEnv true
        = some ((memoizedResultHandle.metadataCache).map Metadata.status,
                memoizedResultHandle, failedEnv, []) ∧
    resultOp memoizedNoResultHandle failedEnv
        = some (.ok none,
                { memoizedNoResultHandle with metadataCache := some ⟨"FAILED", "b", "p"⟩ },
                { failedEnv with metadataSeq := [] }, [.getTask "arn0"]) :=
  ⟨claim_C1_amended.1 memoizedResultHandle failedEnv 0 annealingResultVal rfl rfl,
   claim_C1_amended.2.1 memoizedResultHandle failedEnv,
   claim_C1_amended.2.2 memoizedNoResultHandle failedEnv 0 ⟨"FAILED", "b", "p"⟩ [] rfl rfl rfl rfl⟩

/-- C2: when the handle's cached polling operation is still in flight (the
future is not yet done), `asyncResult()` returns that very operation —
same identity — with the handle unchanged and no network call, rather than
starting a second polling loop. -/
theorem claim_C2 (h : TaskHandle) (env : Env) (fid : Nat)
    (hf : h.futureAttr = some ⟨fid, .running⟩) :
    asyncResultOp h env = some (⟨fid, .running⟩, h, env, []) := by
  simp [asyncResultOp, getFuture, hf, FutureState.isDone]

/-- Witness for `claim_C2` at a concrete handle with an in-flight
future. -/
theorem claim_C2_witness :
    ({ freshTaskHandle "arnR" with futureAttr := some ⟨0, .running⟩,
                                   nextFid := 1 }).futureAttr
        = some (⟨0, .running⟩ : Future) ∧
    asyncResultOp { freshTaskHandle "arnR" with futureAttr := some ⟨0, .running⟩, nextFid := 1 }
        ⟨[], constBlob, constParse⟩
      = some (⟨0, .running⟩,
              { freshTaskHandle "arnR" with futureAttr := some ⟨0, .running⟩, nextFid := 1 },
              ⟨[], constBlob, constParse⟩, []) :=
  ⟨rfl, claim_C2 _ _ 0 rfl⟩

/-- C3: for a fetched status sequence `[QUEUED, COMPLETED]` whose completed
metadata declares output location `(bucketX, prefixY)` (and the timeout not
yet elapsed), the run issues exactly one blob fetch, at
`prefixY/results.json`, and `result()` returns exactly the result
dispatcher's conversion of that blob's parsed content, which is also
memoized on the handle. -/
theorem claim_C3 (T i : Int) (arn b1 d1 : String)
    (blob : String → String → String) (parse : String → TaskResultSchema)
    (r : QuantumTaskResult)
    (hi0 : 0 ≤ i) (hiT : i < T)
    (hfmt : formatResult (parse (blob "bucketX" "prefixY/results.json")) = .ok r) :
    resultOpValue (mkTaskHandle arn T i)
        ⟨[⟨"QUEUED", b1, d1⟩, ⟨"COMPLETED", "bucketX", "prefixY"⟩], blob, parse⟩
      = some (.ok (some r)) ∧
    resultOpCalls (mkTaskHandle arn T i)
        ⟨[⟨"QUEUED", b1, d1⟩, ⟨"COMPLETED", "bucketX", "prefixY"⟩], blob, parse⟩
      = some [.getTask arn, .getTask arn, .getBlob "bucketX" "prefixY/results.json"] ∧
    resultOpMemo (mkTaskHandle arn T i)
        ⟨[⟨"QUEUED", b1, d1⟩, ⟨"COMPLETED", "bucketX", "prefixY"⟩], blob, parse⟩
      = some (some r) := by
  have h0T : (0 : Int) < T := lt_of_le_of_lt hi0 hiT
  have hm1 : "QUEUED" ∉ RESULTS_READY_STATES := by decide
  have hm2 : "QUEUED" ∉ NO_RESULT_TERMINAL_STATES := by decide
  have hm3 : "COMPLETED" ∈ RESULTS_READY_STATES := by decide
  have hrun : pollAux T i arn blob parse
      [⟨"QUEUED", b1, d1⟩, ⟨"COMPLETED", "bucketX", "prefixY"⟩] 0
      = ⟨2, [.getTask arn, .getTask arn, .getBlob "bucketX" "prefixY/results.json"],
         [], some ⟨"COMPLETED", "bucketX", "prefixY"⟩, some (some r),
         .returned (some r)⟩ := by
    simp [pollAux, h0T, hiT, hm1, hm2, hm3, RESULTS_FILENAME, hfmt]
  refine ⟨?_, ?_, ?_⟩ <;>
    simp [resultOpValue, resultOpCalls, resultOpMemo, resultOp, getFuture,
      createFuture, mkTaskHandle, hrun]

/-- Witness for `claim_C3` at a concrete configuration, blob store and
parser. -/
theorem claim_C3_witness :
    ((0 : Int) ≤ 1) ∧ ((1 : Int) < 5) ∧
    formatResult (constParse (constBlob "bucketX" "prefixY/results.json"))
        = .ok annealingResultVal ∧
    resultOpValue (mkTaskHandle "a" 5 1)
        ⟨[⟨"QUEUED", "b", "d"⟩, ⟨"COMPLETED", "bucketX", "prefixY"⟩], constBlob, constParse⟩
      = some (.ok (some annealingResultVal)) ∧
    resultOpCalls (mkTaskHandle "a" 5 1)
        ⟨[⟨"QUEUED", "b", "d"⟩, ⟨"COMPLETED", "bucketX", "prefixY"⟩], constBlob, constParse⟩
      = some [.getTask "a", .getTask "a", .getBlob "bucketX" "prefixY/results.json"] ∧
    resultOpMemo (mkTaskHandle "a" 5 1)
        ⟨[⟨"QUEUED", "b", "d"⟩, ⟨"COMPLETED", "bucketX", "prefixY"⟩], constBlob, constParse⟩
      = some (some annealingResultVal) := by
  have h := claim_C3 5 1 "a" "b" "d" constBlob constParse annealingResultVal
    (by decide) (by decide) rfl
  exact ⟨by decide, by decide, rfl, h.1, h.2.1, h.2.2⟩

/-- C4: for a fetched status sequence `[QUEUED, RUNNING, FAILED]` with the
timeout not yet elapsed, the run returns the empty result after exactly 3
status fetches and 0 blob fetches, and the empty outcome is memoized on
the handle: the result slot is assigned `None` and the future settles with
value `None`. -/
theorem claim_C4 (T i : Int) (arn b1 d1 b2 d2 b3 d3 : String)
    (blob : String → String → String) (parse : String → TaskResultSchema)
    (hi0 : 0 ≤ i) (h2iT : i + i < T) :
    resultOpValue (mkTaskHandle arn T i)
        ⟨[⟨"QUEUED", b1, d1⟩, ⟨"RUNNING", b2, d2⟩, ⟨"FAILED", b3, d3⟩], blob, parse⟩
      = some (.ok none) ∧
    resultOpCalls (mkTaskHandle arn T i)
        ⟨[⟨"QUEUED", b1, d1⟩, ⟨"RUNNING", b2, d2⟩, ⟨"FAILED", b3, d3⟩], blob, parse⟩
      = some [.getTask arn, .getTask arn, .getTask arn] ∧
    resultOpMemo (mkTaskHandle arn T i)
        ⟨[⟨"QUEUED", b1, d1⟩, ⟨"RUNNING", b2, d2⟩, ⟨"FAILED", b3, d3⟩], blob, parse⟩
      = some none ∧
    resultOpFutureAttr (mkTaskHandle arn T i)
        ⟨[⟨"QUEUED", b1, d1⟩, ⟨"RUNNING", b2, d2⟩, ⟨"FAILED", b3, d3⟩], blob, parse⟩
      = some (some ⟨0, .doneValue none⟩) := by
  have hii : i ≤ i + i := le_add_of_nonneg_left hi0
  have hiT : i < T := lt_of_le_of_lt hii h2iT
  have h0T : (0 : Int) < T := lt_of_le_of_lt hi0 hiT
  have hm1 : "QUEUED" ∉ RESULTS_READY_STATES := by decide
  have hm2 : "QUEUED" ∉ NO_RESULT_TERMINAL_STATES := by decide
  have hm3 : "RUNNING" ∉ RESULTS_READY_STATES := by decide
  have hm4 : "RUNNING" ∉ NO_RESULT_TERMINAL_STATES := by decide
  have hm5 : "FAILED" ∉ RESULTS_READY_STATES := by decide
  have hm6 : "FAILED" ∈ NO_RESULT_TERMINAL_STATES := by decide
  have hrun : pollAux T i arn blob parse
      [⟨"QUEUED", b1, d1⟩, ⟨"RUNNING", b2, d2⟩, ⟨"FAILED", b3, d3⟩] 0
      = ⟨3, [.getTask arn, .getTask arn, .getTask arn],
         [], some ⟨"FAILED", b3, d3⟩, some none, .returned none⟩ := by
    simp [pollAux, h0T, hiT, h2iT, hm1, hm2, hm3, hm4, hm5, hm6]
  refine ⟨?_, ?_, ?_, ?_⟩ <;>
    simp [resultOpValue, resultOpCalls, resultOpMemo, resultOpFutureAttr, resultOp,
      getFuture, createFuture, mkTaskHandle, hrun]

/-- Witness for `claim_C4` at a concrete configuration, blob store and
parser. -/
theorem claim_C4_witness :
    ((0 : Int) ≤ 1) ∧ ((1 : Int) + 1 < 5) ∧
    resultOpValue (mkTaskHandle "a" 5 1)
        ⟨[⟨"QUEUED", "b", "d"⟩, ⟨"RUNNING", "b", "d"⟩, ⟨"FAILED", "b", "d"⟩],
         constBlob, constParse⟩
      = some (.ok none) ∧
    resultOpCalls (mkTaskHandle "a" 5 1)
        ⟨[⟨"QUEUED", "b", "d"⟩, ⟨"RUNNING", "b", "d"⟩, ⟨"FAILED", "b", "d"⟩],
         constBlob, constParse⟩
      = some [.getTask "a", .getTask "a", .getTask "a"] ∧
    resultOpMemo (mkTaskHandle "a" 5 1)
        ⟨[⟨"QUEUED", "b", "d"⟩, ⟨"RUNNING", "b", "d"⟩, ⟨"FAILED", "b", "d"⟩],
         constBlob, constParse⟩
      = some none ∧
    resultOpFutureAttr (mkTaskHandle "a" 5 1)
        ⟨[⟨"QUEUED", "b", "d"⟩, ⟨"RUNNING", "b", "d"⟩, ⟨"FAILED", "b", "d"⟩],
         constBlob, constParse⟩
      = some (some ⟨0, .doneValue none⟩) := by
  have h := claim_C4 5 1 "a" "b" "d" "b" "d" "b" "d" constBlob constParse
    (by decide) (by decide)
  exact ⟨by decide, by decide, h.1, h.2.1, h.2.2.1, h.2.2.2⟩

/-- C5 is refuted as stated: with pollTimeout = 0 a run performs zero
metadata fetches and returns empty, because the loop tests the
elapsed-time timeout before each metadata fetch, not after. -/
theorem claim_C5_counterexample :
    (pollAux 0 1 "a" constBlob constParse [⟨"QUEUED", "b", "d"⟩] 0).statusFetches = 0 ∧
    (pollAux 0 1 "a" constBlob constParse [⟨"QUEUED", "b", "d"⟩] 0).outcome
        = .returned none :=
  ⟨rfl, rfl⟩

/-- C5 amended: the polling loop records the start time and then tests the
elapsed-time timeout before each metadata fetch, so a run whose timeout is
at most zero performs no metadata fetch at all and returns empty, while a
run with a positive timeout performs at least one metadata fetch whenever
the environment supplies one. -/
theorem claim_C5_amended :
    (∀ (T i : Int) (arn : String) (blob : String → String → String)
        (parse : String → TaskResultSchema) (ms : List Metadata), T ≤ 0 →
        pollAux T i arn blob parse ms 0
          = ⟨0, [], ms, none, some none, .returned none⟩) ∧
    (∀ (T i : Int) (arn : String) (blob : String → String → String)
        (parse : String → TaskResultSchema) (m : Metadata) (rest : List Metadata),
        0 < T →
        1 ≤ (pollAux T i arn blob parse (m :: rest) 0).statusFetches) := by
  constructor
  · intro T i arn blob parse ms hT
    have hnlt : ¬ (0 : Int) < T := not_lt.mpr hT
    cases ms <;> simp [pollAux, hnlt]
  · intro T i arn blob parse m rest h0T
    simp only [pollAux, if_pos h0T]
    split
    · split <;> simp
    · split <;> simp_arith

/-- Witness for `claim_C5_amended` at concrete configurations. -/
theorem claim_C5_amended_witness :
    pollAux 0 1 "a" constBlob constParse [⟨"QUEUED", "b", "d"⟩] 0
        = ⟨0, [], [⟨"QUEUED", "b", "d"⟩], none, some none, .returned none⟩ ∧
    1 ≤ (pollAux 1 1 "a" constBlob constParse [⟨"QUEUED", "b", "d"⟩] 0).statusFetches :=
  ⟨claim_C5_amended.1 0 1 "a" constBlob constParse [⟨"QUEUED", "b", "d"⟩] (by decide),
   claim_C5_amended.2 1 1 "a" constBlob constParse ⟨"QUEUED", "b", "d"⟩ [] (by decide)⟩

/-- C6 is refuted as stated: a problem-variant submission with shot count
-1 and a well-formed output location raises nothing and issues one submit
call carrying the negative shot count — no validation happens before the
network call. -/
theorem claim_C6_counterexample :
    createOp constValidate constDwave "newArn" "dev" (.problem ⟨"ir"⟩) ["bucketX", "keyY"]
        (some (-1)) none
      = (.ok (freshTaskHandle "newArn"),
         [.createTask ⟨"dev", "bucketX", "keyY", -1, "ir", .dwaveJson "dw"⟩]) := rfl

/-- C6 amended: a negative shot count is not validated by the submission
factory; a problem-variant submission with a negative shot count and a
well-formed output location succeeds locally and issues exactly one
network submit call carrying the negative value (only the output-location
arity is checked before any network call, and the circuit variant defers
shot checking to its external validator). -/
theorem claim_C6_amended (validate : CircuitSpec → Int → Except String Unit)
    (dwaveParamsJson : PyVal → Except String String)
    (newTaskArn deviceArn : String) (p : ProblemSpec) (b k : String)
    (sh : Int) (dp : Option PyVal) (dj : String)
    (_hneg : sh < 0) (hdw : dwaveParamsJson (dp.getD (.dictV [])) = .ok dj) :
    createOp validate dwaveParamsJson newTaskArn deviceArn (.problem p) [b, k] (some sh) dp
      = (.ok (freshTaskHandle newTaskArn),
         [.createTask ⟨deviceArn, b, k, sh, p.irJson, .dwaveJson dj⟩]) := by
  simp [createOp, hdw]

/-- Witness for `claim_C6_amended` at a concrete negative-shot
submission. -/
theorem claim_C6_amended_witness :
    ((-1 : Int) < 0) ∧ constDwave ((none : Option PyVal).getD (.dictV [])) = .ok "dw" ∧
    createOp constValidate constDwave "newArn" "dev" (.problem ⟨"ir"⟩) ["b", "k"] (some (-1)) none
      = (.ok (freshTaskHandle "newArn"),
         [.createTask ⟨"dev", "b", "k", -1, "ir", .dwaveJson "dw"⟩]) :=
  ⟨by decide, rfl,
   claim_C6_amended constValidate constDwave "newArn" "dev" ⟨"ir"⟩ "b" "k" (-1) none "dw"
     (by decide) rfl⟩

/-- C7: for every output location whose arity differs from 2, submission
fails with the size-2 `ValueError` and issues zero network calls — the
check precedes everything else in the factory. -/
theorem claim_C7 (validate : CircuitSpec → Int → Except String Unit)
    (dwaveParamsJson : PyVal → Except String String)
    (newTaskArn deviceArn : String) (spec : TaskSpecification)
    (folder : List String) (shots : Option Int) (dp : Option PyVal)
    (hlen : folder.length ≠ 2) :
    createOp validate dwaveParamsJson newTaskArn deviceArn spec folder shots dp
      = (.error "ValueError: s3_destination_folder must be of size 2 with a bucket and key respectively.",
         []) := by
  simp [createOp, hlen]

/-- Witness for `claim_C7` at a one-component output location. -/
theorem claim_C7_witness :
    ([("b" : String)].length ≠ 2) ∧
    createOp constValidate constDwave "newArn" "dev" (.problem ⟨"ir"⟩) ["b"] (some 5) none
      = (.error "ValueError: s3_destination_folder must be of size 2 with a bucket and key respectively.",
         []) :=
  ⟨by decide, claim_C7 constValidate constDwave "newArn" "dev" (.problem ⟨"ir"⟩) ["b"]
    (some 5) none (by decide)⟩

/-- C8: whenever the result dispatcher formats a gate-model raw result
successfully, the measurements pass through unchanged and the result-type
entries are converted pointwise before the final result is built: every
non-amplitude entry is left unchanged, and each state of an amplitude
entry whose encoding is the two-component list `[a, b]` becomes the single
complex value `a + b*i`. -/
theorem claim_C8 (r : GateModelTaskResult) (out : GateModelQuantumTaskResult)
    (h : formatGateModel r = .ok out) :
    out.fromObject.measurements = r.measurements ∧
    List.Forall₂ entryConverted r.resultTypes out.fromObject.resultTypes := by
  unfold formatGateModel at h
  cases hf : formatEntries r.resultTypes with
  | error err => rw [hf] at h; exact absurd h (by simp [Except.map])
  | ok rts =>
    rw [hf] at h
    have hout : out = ⟨⟨rts, r.measurements⟩⟩ := by
      simpa [Except.map] using h.symm
    subst hout
    exact ⟨rfl, formatEntries_spec r.resultTypes rts hf⟩

/-- Witness for `claim_C8` at the concrete raw result whose amplitude
encoding is `(3, 4)`. -/
theorem claim_C8_witness :
    formatGateModel ampResultExample = .ok ampResultExampleOut ∧
    (ampResultExampleOut.fromObject.measurements = ampResultExample.measurements ∧
      List.Forall₂ entryConverted ampResultExample.resultTypes
        ampResultExampleOut.fromObject.resultTypes) :=
  ⟨rfl, claim_C8 ampResultExample ampResultExampleOut rfl⟩

/-- C9: cancelling a handle with no active operation does not raise — the
call returns normally, installing a freshly cancelled local future — and
still issues exactly one remote cancel call for the handle's job id. -/
theorem claim_C9 (h : TaskHandle) (hf : h.futureAttr = none) :
    cancelOp h = .ok ({ h with futureAttr := some ⟨h.nextFid, .cancelled⟩,
                               nextFid := h.nextFid + 1 },
                      [.cancelTask h.arn]) := by
  simp [cancelOp, cancelFutureOp, hf]

/-- Witness for `claim_C9` at a fresh handle. -/
theorem claim_C9_witness :
    (freshTaskHandle "arnZ").futureAttr = none ∧
    cancelOp (freshTaskHandle "arnZ")
      = .ok ({ freshTaskHandle "arnZ" with futureAttr := some ⟨0, .cancelled⟩, nextFid := 1 },
             [.cancelTask "arnZ"]) :=
  ⟨rfl, claim_C9 (freshTaskHandle "arnZ") rfl⟩

/-- C10: a submission with `shots = None` issues zero network calls, and
whenever the output location is well-formed it fails with the
`AttributeError` caused by the fallback to the class attribute
`DEFAULT_SHOTS`, which the class never defines. -/
theorem claim_C10 (validate : CircuitSpec → Int → Except String Unit)
    (dwaveParamsJson : PyVal → Except String String)
    (newTaskArn deviceArn : String) (spec : TaskSpecification)
    (folder : List String) (dp : Option PyVal) :
    (createOp validate dwaveParamsJson newTaskArn deviceArn spec folder none dp).2 = [] ∧
    (folder.length = 2 →
      createOp validate dwaveParamsJson newTaskArn deviceArn spec folder none dp
        = (.error "AttributeError: type object AwsQuantumTask has no attribute DEFAULT_SHOTS",
           [])) := by
  constructor
  · by_cases hlen : folder.length = 2
    · simp [createOp, hlen, awsQuantumTaskDefaultShots, awsQuantumTaskClassAttrNames]
    · simp [createOp, hlen]
  · intro hlen
    simp [createOp, hlen, awsQuantumTaskDefaultShots, awsQuantumTaskClassAttrNames]

/-- Witness for `claim_C10` at a concrete `shots = None` submission. -/
theorem claim_C10_witness :
    (createOp constValidate constDwave "newArn" "dev" (.problem ⟨"ir"⟩) ["b", "k"] none none).2
        = [] ∧
    createOp constValidate constDwave "newArn" "dev" (.problem ⟨"ir"⟩) ["b", "k"] none none
      = (.error "AttributeError: type object AwsQuantumTask has no attribute DEFAULT_SHOTS",
         []) :=
  ⟨(claim_C10 constValidate constDwave "newArn" "dev" (.problem ⟨"ir"⟩) ["b", "k"] none).1,
   (claim_C10 constValidate constDwave "newArn" "dev" (.problem ⟨"ir"⟩) ["b", "k"] none).2 rfl⟩

end BraketSpec
